import Mathlib

/-!
Verification development for the transactional package-state and
boot-integration layer of the moss package manager
(`moss/src/state.rs` and `moss/src/client/boot.rs`).

Pure data and algorithms are embedded directly.  The external boot-loader
driver library (blsforme), the filesystem and the os-release parser are
consumed through an explicit environment of oracles, and `synchronize`
additionally produces a trace of the externally visible events of a run,
so that ordering and error-propagation properties can be stated.
-/

namespace MossBoot

/-- Filesystem paths, modelled as plain strings (Rust `PathBuf`). -/
abbrev Path := String

/-- Embedding of Rust `PathBuf::join` for the relative components used by
the boot module: appends a component, inserting a separator when needed,
and replaces the path when the component is absolute. -/
def Path.join (p : Path) (c : String) : Path :=
  match c.toList with
  | '/' :: _ => c
  | _ =>
    if p.toList.getLast? == some '/' || p == "" then p ++ c
    else p ++ "/" ++ c

/-- Opaque package identifier (`moss::package::Id`, a string newtype). -/
abbrev PackageId := String

/-- Opaque error payloads of the external collaborators. -/
abbrev BlsErr := String

/-- Opaque payload of a filesystem read error. -/
abbrev FsErr := String

/-- Opaque payload of an os-release parse error. -/
abbrev OsrErr := String

/-- Opaque payload of a pattern-compilation error (`fnmatch::Error`). -/
abbrev FnmatchErr := String

/-- Decidable equality for `Except`, used to evaluate concrete runs. -/
instance {ε α : Type} [DecidableEq ε] [DecidableEq α] :
    DecidableEq (Except ε α) := fun x y =>
  match x, y with
  | .ok a, .ok b =>
      if h : a = b then isTrue (h ▸ rfl)
      else isFalse fun hh => h (by injection hh)
  | .error a, .error b =>
      if h : a = b then isTrue (h ▸ rfl)
      else isFalse fun hh => h (by injection hh)
  | .ok _, .error _ => isFalse fun hh => Except.noConfusion hh
  | .error _, .ok _ => isFalse fun hh => Except.noConfusion hh

/-! ## fnmatch patterns

The `fnmatch` crate is part of this repository but its sources are not
among the excerpted files; only its use sites in `boot.rs` are.  It is
modelled from the spec below. -/

/-- Fuelled glob matcher: a literal character matches itself and `*`
matches any run of characters other than the path separator `/`.  Every
step shrinks the combined length of pattern and subject, so any fuel
above that sum computes the match. -/
def globMatchF : Nat → List Char → List Char → Bool
  | 0, _, _ => false
  | _ + 1, [], [] => true
  | _ + 1, [], _ :: _ => false
  | f + 1, '*' :: ps, [] => globMatchF f ps []
  | f + 1, '*' :: ps, c :: cs =>
      globMatchF f ps (c :: cs) ||
        (decide (c ≠ '/') && globMatchF f ('*' :: ps) cs)
  | _ + 1, _ :: _, [] => false
  | f + 1, p :: ps, c :: cs => p == c && globMatchF f ps cs

/-- Glob matching for a stripped pattern, with enough fuel to run to
completion. -/
def globMatch (ps cs : List Char) : Bool :=
  globMatchF (ps.length + cs.length + 1) ps cs

/-- Scanner state for stripping capture groups out of a glob pattern:
`depth` 0 is outside a group, 1 inside the group name, 2 inside the
group's sub-pattern. -/
structure StripState where
  out : List Char
  depth : Nat
  ok : Bool
deriving Repr, DecidableEq

/-- One character step of the capture-group scanner. -/
def stripStep (s : StripState) (c : Char) : StripState :=
  if !s.ok then s
  else match s.depth, c with
    | 0, '(' => { s with depth := 1 }
    | 0, ')' => { s with ok := false }
    | 0, c => { s with out := s.out ++ [c] }
    | 1, ':' => { s with depth := 2 }
    | 1, '(' => { s with ok := false }
    | 1, ')' => { s with ok := false }
    | 1, _ => s
    | 2, ')' => { s with depth := 0 }
    | 2, '(' => { s with ok := false }
    | 2, c => { s with out := s.out ++ [c] }
    | _, _ => s

/-- Compiled glob pattern (`fnmatch::Pattern`); only the matching glob is
retained, since `boot.rs` uses `match_path(..).is_some()` and never the
captured groups. -/
structure Pattern where
  glob : List Char
deriving Repr, DecidableEq

/-- Embedding of `Pattern::match_path(target).is_some()`. -/
def Pattern.matchPath (p : Pattern) (target : String) : Bool :=
  globMatch p.glob target.toList

/-- Modelled from the spec: the `fnmatch` pattern compiler
(`Pattern::from_str`), whose sources are not among the excerpted files.
The spec describes glob-style path patterns with a capturing wildcard
group form such as `lib/kernel/(version:*)/*`; compilation succeeds exactly
when every capture group is well formed (balanced, un-nested, and
carrying a leading name and colon), and the compiled matcher is the glob with
each group replaced by its sub-pattern. -/
def Pattern.fromStr (s : String) : Except FnmatchErr Pattern :=
  let st := s.toList.foldl stripStep ⟨[], 0, true⟩
  if st.ok && st.depth == 0 then .ok ⟨st.out⟩ else .error "invalid pattern"

/-! ## State model (`moss/src/state.rs`) -/

/-- Unique identifier for a `State` (`struct Id(i64)`); the payload is an
unbounded integer, matching the source's plain `i64` arithmetic with no
wraparound handling. -/
structure Id where
  val : Int
deriving Repr, DecidableEq

/-- Embedding of `Id::next`: `Self(self.0 + 1)`. -/
def Id.next (i : Id) : Id := ⟨i.val + 1⟩

/-- Two's-complement narrowing of the 64-bit id to 32 bits.  This is the
`i32::from(state.id)` conversion used in `synchronize`; the conversion
impl itself is outside the excerpted sources and is modelled as the Rust
integer cast `as i32`, the only total narrowing semantics. -/
def Id.toI32 (i : Id) : Int :=
  (i.val + 2 ^ 31) % 2 ^ 32 - 2 ^ 31

/-- State kinds (`enum Kind`): only `Transaction` exists today. -/
inductive Kind where
  | transaction
deriving Repr, DecidableEq

/-- One package's membership in a state (`struct Selection`). -/
structure Selection where
  package : PackageId
  explicit : Bool
  reason : Option String
deriving Repr, DecidableEq

/-- Embedding of `Selection::explicit` (named with a prime because the
field projection `Selection.explicit` occupies the source name). -/
def Selection.explicit' (package : PackageId) : Selection :=
  { package := package, explicit := true, reason := none }

/-- Embedding of `Selection::transitive`. -/
def Selection.transitive (package : PackageId) : Selection :=
  { package := package, explicit := true, reason := none }

/-- Embedding of `Selection::reason` (named with a prime because the
field projection `Selection.reason` occupies the source name). -/
def Selection.reason' (s : Selection) (reason : String) : Selection :=
  { s with reason := some reason }

/-- An immutable generation record (`struct State`). -/
structure State where
  id : Id
  summary : Option String
  description : Option String
  selections : List Selection
  created : Int
  kind : Kind
deriving Repr, DecidableEq

/-! ## Package layouts (`stone::payload::layout`) -/

/-- Layout entry variants; only `regular` and `symlink` carry data the
boot module reads, the rest are present so that the discoverer's
catch-all arm is exercised. -/
inductive LayoutEntry where
  | regular (hash : String) (target : String)
  | symlink (source : String) (target : String)
  | directory (target : String)
  | characterDevice (target : String)
  | blockDevice (target : String)
  | fifo (target : String)
  | socket (target : String)
deriving Repr, DecidableEq

/-- One file-system entry shipped by a package (`stone::payload::Layout`). -/
structure Layout where
  uid : Nat
  gid : Nat
  mode : Nat
  tag : Nat
  entry : LayoutEntry
deriving Repr, DecidableEq

/-- The filesystem root being operated on (`moss::Installation`, the one
field the boot module reads). -/
structure Installation where
  root : Path
deriving Repr, DecidableEq

/-! ## blsforme interface model

The boot-loader driver library is an external collaborator; its values
are abstract tokens and its effectful operations are supplied by a
`BootEnv` of oracles. -/

/-- Parsed os-release identity, opaque to this layer. -/
abbrev OsRelease := String

/-- A discovered kernel descriptor, opaque to this layer. -/
abbrev Kernel := String

/-- One kernel command-line fragment (`blsforme::CmdlineEntry`). -/
structure CmdlineEntry where
  name : String
  snippet : String
deriving Repr, DecidableEq

/-- Boot menu entry under construction (`blsforme::Entry`): the kernel it
boots, its accumulated command-line fragments, and the owning state id. -/
structure Entry where
  kernel : Kernel
  cmdline : List CmdlineEntry
  stateId : Option Int
deriving Repr, DecidableEq

/-- Embedding of `Entry::new`. -/
def Entry.new (k : Kernel) : Entry :=
  { kernel := k, cmdline := [], stateId := none }

/-- Embedding of `Entry::with_cmdline`: appends one fragment. -/
def Entry.with_cmdline (e : Entry) (c : CmdlineEntry) : Entry :=
  { e with cmdline := e.cmdline ++ [c] }

/-- Embedding of `Entry::with_state_id`. -/
def Entry.with_state_id (e : Entry) (i : Int) : Entry :=
  { e with stateId := some i }

/-- Embedding of `blsforme::Root`: native (live `/`) or offline image. -/
inductive BRoot where
  | native (p : Path)
  | image (p : Path)
deriving Repr, DecidableEq

/-- Embedding of `blsforme::Configuration`. -/
structure Configuration where
  root : BRoot
  vfs : Path
deriving Repr, DecidableEq

/-- Externally visible events of one `synchronize` run, recorded in
order: the attempted os-release read, each snippet-failure warning, the
attempted construction of the boot-loader manager, the entries and
assets handed to a successfully constructed manager, the partition
mount, and the final configuration sync. -/
inductive Event where
  | readOsRel
  | warn (msg : String)
  | attemptManager
  | managerConstructed (entries : List Entry) (assets : List Path)
  | mountCall
  | syncCall
deriving Repr, DecidableEq

/-- Oracles for the external collaborators of `synchronize`: filesystem
read, os-release parser, kernel-discovery schema, per-entry cmdline
snippet loading, and the boot-loader driver (construction, partition
mounting, configuration sync). -/
structure BootEnv where
  readOsReleaseFile : Path → Except FsErr String
  parseOsRelease : String → Except OsrErr OsRelease
  discoverKernels : OsRelease → List Path → Except BlsErr (List Kernel)
  loadSnippets : Configuration → Entry → Except BlsErr (List CmdlineEntry)
  newManager : Configuration → Except BlsErr Unit
  mountPartitions : Configuration → Except BlsErr Unit
  syncSchema : Configuration → OsRelease → Except BlsErr Unit

/-! ## Boot synchronizer (`moss/src/client/boot.rs`) -/

/-- Embedding of the module's `enum Error`. -/
inductive Error where
  | blsforme (e : BlsErr)
  | ioRead (e : FsErr)
  | osRelease (e : OsrErr)
  | pattern (e : FnmatchErr)
  | incompleteKernel (s : String)
deriving Repr, DecidableEq

/-- Mapping of a kernel discovery path to its originating layout
(`struct KernelCandidate`). -/
structure KernelCandidate where
  path : Path
  layout : Layout
deriving Repr, DecidableEq

/-- Embedding of `kernel_files_from_state`: collects, in layout order,
the `Regular` and `Symlink` entries whose target matches the kernel
pattern, resolved under `root/usr`. -/
def kernel_files_from_state (install : Installation)
    (layouts : List (PackageId × Layout)) (pattern : Pattern) :
    List KernelCandidate :=
  layouts.foldl
    (fun acc pr =>
      match pr.2.entry with
      | .regular _ target =>
          if pattern.matchPath target then
            acc ++ [⟨(install.root.join "usr").join target, pr.2⟩]
          else acc
      | .symlink _ target =>
          if pattern.matchPath target then
            acc ++ [⟨(install.root.join "usr").join target, pr.2⟩]
          else acc
      | _ => acc)
    []

/-- Embedding of `boot_files_from_state`: collects, in layout order, the
`Regular` entries whose target matches the boot-loader asset pattern,
resolved under `root/usr`. -/
def boot_files_from_state (install : Installation)
    (layouts : List (PackageId × Layout)) (pattern : Pattern) :
    List Path :=
  layouts.foldl
    (fun acc pr =>
      match pr.2.entry with
      | .regular _ target =>
          if pattern.matchPath target then
            acc ++ [(install.root.join "usr").join target]
          else acc
      | _ => acc)
    []

/-- Entry construction inside `synchronize`: narrows the state id to
`i32`, tags the entry with the `moss.fstx=` cmdline fragment carrying
that value in decimal, and records the same value in the entry's state
id field. -/
def buildEntry (state : State) (d : Kernel) : Entry :=
  let id := state.id.toI32
  ((Entry.new d).with_cmdline
      { name := "---fstx---", snippet := "moss.fstx=" ++ toString id }).with_state_id
    id

/-- One pass of the snippet-loading loop body for a single entry: on
success the loaded fragments are appended, on failure the entry is left
unchanged and the error message is reported for the warning log. -/
def loadSnippetsOne (env : BootEnv) (config : Configuration) (e : Entry) :
    Entry × Option String :=
  match env.loadSnippets config e with
  | .ok snips => ({ e with cmdline := e.cmdline ++ snips }, none)
  | .error err => (e, some err)

/-- The snippet-loading loop over all entries, returning the updated
entries (in order) and the warning messages of the failures (in order). -/
def loadAllSnippets (env : BootEnv) (config : Configuration) :
    List Entry → List Entry × List String
  | [] => ([], [])
  | e :: es =>
    let p := loadSnippetsOne env config e
    let rest := loadAllSnippets env config es
    (p.1 :: rest.1, match p.2 with | some m => m :: rest.2 | none => rest.2)

/-- Tail of `synchronize` after a manager was constructed: a native run
mounts partitions and then syncs, an image run syncs directly; any
mount or sync failure propagates. -/
def mountAndSync (env : BootEnv) (config : Configuration) (isNative : Bool)
    (osr : OsRelease) (pre : List Event) : Except Error Unit × List Event :=
  if isNative then
    match env.mountPartitions config with
    | .error e => (.error (.blsforme e), pre ++ [.mountCall])
    | .ok _ =>
      match env.syncSchema config osr with
      | .error e => (.error (.blsforme e), pre ++ [.mountCall, .syncCall])
      | .ok _ => (.ok (), pre ++ [.mountCall, .syncCall])
  else
    match env.syncSchema config osr with
    | .error e => (.error (.blsforme e), pre ++ [.syncCall])
    | .ok _ => (.ok (), pre ++ [.syncCall])

/-- Manager-construction phase of `synchronize`: a construction failure
is swallowed as a successful no-op; on success the entries and
boot-loader assets are handed over and the run proceeds to mount/sync. -/
def managePhase (env : BootEnv) (config : Configuration) (isNative : Bool)
    (osr : OsRelease) (entries : List Entry) (assets : List Path)
    (pre : List Event) : Except Error Unit × List Event :=
  match env.newManager config with
  | .error _ => (.ok (), pre ++ [.attemptManager])
  | .ok _ =>
      mountAndSync env config isNative osr
        (pre ++ [.attemptManager, .managerConstructed entries assets])

/-- The configuration built at the top of `synchronize`. -/
def configFor (install : Installation) : Configuration :=
  { root :=
      if install.root == "/" then .native install.root
      else .image install.root,
    vfs := "/" }

/-- The os-release path read by `synchronize`. -/
def osReleasePath (install : Installation) : Path :=
  ((install.root.join "usr").join "lib").join "os-release"

/-- Embedding of `synchronize`, the sole public entry point: classifies
the root, compiles the two glob patterns, discovers boot assets and
kernels, exits successfully early when either set is empty, resolves the
OS identity, discovers system kernels, builds one tagged entry per
kernel, loads cmdline snippets (warning on failure), and delegates to
the boot-loader driver.  Returns the result together with the event
trace of the run. -/
def synchronize (env : BootEnv) (install : Installation) (state : State)
    (layouts : List (PackageId × Layout)) : Except Error Unit × List Event :=
  let root := install.root
  let isNative := root == "/"
  let config := configFor install
  match Pattern.fromStr "lib/kernel/(version:*)/*" with
  | .error e => (.error (.pattern e), [])
  | .ok pattern =>
    match Pattern.fromStr "lib*/systemd/boot/efi/*.efi" with
    | .error e => (.error (.pattern e), [])
    | .ok systemd =>
      let bootyBits := boot_files_from_state install layouts systemd
      let kernels := kernel_files_from_state install layouts pattern
      if kernels.isEmpty then (.ok (), [])
      else if bootyBits.isEmpty then (.ok (), [])
      else
        match env.readOsReleaseFile (osReleasePath install) with
        | .error e => (.error (.ioRead e), [.readOsRel])
        | .ok fp =>
          match env.parseOsRelease fp with
          | .error e => (.error (.osRelease e), [.readOsRel])
          | .ok osr =>
            match env.discoverKernels osr (kernels.map KernelCandidate.path) with
            | .error e => (.error (.blsforme e), [.readOsRel])
            | .ok discovered =>
              let p := loadAllSnippets env config (discovered.map (buildEntry state))
              managePhase env config isNative osr p.1 bootyBits
                (.readOsRel :: p.2.map Event.warn)

/-! ## Compiled forms of the two fixed patterns -/

/-- The compiled kernel pattern `lib/kernel/(version:*)/*`. -/
def kernelPattern : Pattern := ⟨"lib/kernel/*/*".toList⟩

/-- The compiled boot-loader asset pattern `lib*/systemd/boot/efi/*.efi`. -/
def systemdPattern : Pattern := ⟨"lib*/systemd/boot/efi/*.efi".toList⟩

lemma fromStr_kernelGlob :
    Pattern.fromStr "lib/kernel/(version:*)/*" = .ok kernelPattern := rfl

lemma fromStr_systemdGlob :
    Pattern.fromStr "lib*/systemd/boot/efi/*.efi" = .ok systemdPattern := rfl

/-! ## Spec-side renderings of discovery -/

/-- Written to the spec's words: the kernel candidates are exactly the
`Regular` and `Symlink` layout entries whose relative target matches the
kernel pattern, each resolved to `root/usr/target` and kept in input
order. -/
def kernelCandidatesSpec (install : Installation)
    (layouts : List (PackageId × Layout)) (pattern : Pattern) :
    List KernelCandidate :=
  layouts.filterMap fun pr =>
    match pr.2.entry with
    | .regular _ target =>
        if pattern.matchPath target then
          some ⟨(install.root.join "usr").join target, pr.2⟩
        else none
    | .symlink _ target =>
        if pattern.matchPath target then
          some ⟨(install.root.join "usr").join target, pr.2⟩
        else none
    | _ => none

/-- Written to the spec's words: the boot-loader asset paths are exactly
the `Regular` layout entries whose relative target matches the asset
pattern (symlinks and all other variants excluded), each resolved to
`root/usr/target` and kept in input order. -/
def bootAssetsSpec (install : Installation)
    (layouts : List (PackageId × Layout)) (pattern : Pattern) :
    List Path :=
  layouts.filterMap fun pr =>
    match pr.2.entry with
    | .regular _ target =>
        if pattern.matchPath target then
          some ((install.root.join "usr").join target)
        else none
    | _ => none

/-- A push-style fold is the filterMap of its per-element selector. -/
lemma foldl_push_eq_filterMap {α β : Type} (step : List β → α → List β)
    (f : α → Option β) (hstep : ∀ acc x, step acc x = acc ++ (f x).toList) :
    ∀ (l : List α) (acc : List β), l.foldl step acc = acc ++ l.filterMap f := by
  intro l
  induction l with
  | nil => intro acc; simp
  | cons x l ih =>
      intro acc
      rw [List.foldl_cons, ih, hstep, List.filterMap_cons]
      cases h : f x <;> simp [h, Option.toList]

lemma kernel_files_eq_spec (install : Installation)
    (layouts : List (PackageId × Layout)) (pattern : Pattern) :
    kernel_files_from_state install layouts pattern =
      kernelCandidatesSpec install layouts pattern := by
  unfold kernel_files_from_state kernelCandidatesSpec
  rw [foldl_push_eq_filterMap _
    (fun pr =>
      match pr.2.entry with
      | .regular _ target =>
          if pattern.matchPath target then
            some ⟨(install.root.join "usr").join target, pr.2⟩
          else none
      | .symlink _ target =>
          if pattern.matchPath target then
            some ⟨(install.root.join "usr").join target, pr.2⟩
          else none
      | _ => none)]
  · simp
  · intro acc pr
    rcases pr with ⟨pid, lay⟩
    cases lay.entry <;> dsimp only <;> (try split) <;> simp [Option.toList]

lemma boot_files_eq_spec (install : Installation)
    (layouts : List (PackageId × Layout)) (pattern : Pattern) :
    boot_files_from_state install layouts pattern =
      bootAssetsSpec install layouts pattern := by
  unfold boot_files_from_state bootAssetsSpec
  rw [foldl_push_eq_filterMap _
    (fun pr =>
      match pr.2.entry with
      | .regular _ target =>
          if pattern.matchPath target then
            some ((install.root.join "usr").join target)
          else none
      | _ => none)]
  · simp
  · intro acc pr
    rcases pr with ⟨pid, lay⟩
    cases lay.entry <;> dsimp only <;> (try split) <;> simp [Option.toList]

/-! ## Claim theorems: pure data model and discovery -/

/-- C6: for every layout list, installation root and pair of patterns,
the discoverer produces as kernel candidates exactly the Regular and
Symlink entries whose relative target matches the kernel pattern, and as
boot-loader asset paths exactly the Regular entries whose target matches
the asset pattern (other variants excluded); each match is resolved to
the absolute path root/usr/target, and both lists preserve the input
layout order. -/
theorem discovery_matches_spec (install : Installation)
    (layouts : List (PackageId × Layout)) (kp ap : Pattern) :
    kernel_files_from_state install layouts kp =
        kernelCandidatesSpec install layouts kp ∧
      boot_files_from_state install layouts ap =
        bootAssetsSpec install layouts ap :=
  ⟨kernel_files_eq_spec install layouts kp, boot_files_eq_spec install layouts ap⟩

/-- C7: for every package id, the transitive-selection constructor
returns a selection with the explicit flag set and no reason, i.e. the
very same value the explicit-selection constructor produces. -/
theorem transitive_selection_is_explicit (p : PackageId) :
    Selection.transitive p = { package := p, explicit := true, reason := none } ∧
      Selection.transitive p = Selection.explicit' p :=
  ⟨rfl, rfl⟩

/-- C8: for every state identifier, `next` adds exactly one, so applying
it twice adds two and `next` is injective; the payload arithmetic is
plain integer addition with no wraparound handling. -/
theorem id_next_adds_one :
    (∀ i : Id, i.next = ⟨i.val + 1⟩) ∧
      (∀ i : Id, i.next.next = ⟨i.val + 2⟩) ∧
      Function.Injective Id.next := by
  refine ⟨fun i => rfl, fun i => ?_, fun a b h => ?_⟩
  · show Id.mk (i.val + 1 + 1) = Id.mk (i.val + 2)
    rw [add_assoc]; norm_num
  · cases a; cases b
    have := congrArg Id.val h
    simp only [Id.next] at this
    simpa using this

/-- C9: before being embedded in the boot entry, the state's 64-bit id
is narrowed to a 32-bit signed integer; both the `moss.fstx=` cmdline
value and the entry's structured state-id field carry that narrowed
value, so for every state whose id lies outside the i32 range the tagged
value differs from the state's actual id. -/
theorem state_id_narrowed_to_i32 (s : State) (d : Kernel)
    (h : s.id.val < -(2 ^ 31) ∨ (2 ^ 31 : Int) ≤ s.id.val) :
    (buildEntry s d).cmdline =
        [{ name := "---fstx---", snippet := "moss.fstx=" ++ toString s.id.toI32 }] ∧
      (buildEntry s d).stateId = some s.id.toI32 ∧
      s.id.toI32 ≠ s.id.val := by
  refine ⟨rfl, rfl, ?_⟩
  have h0 : (0 : Int) ≤ (s.id.val + 2 ^ 31) % 2 ^ 32 :=
    Int.emod_nonneg _ (by norm_num)
  have h1 : (s.id.val + 2 ^ 31) % 2 ^ 32 < 2 ^ 32 :=
    Int.emod_lt_of_pos _ (by norm_num)
  unfold Id.toI32
  rcases h with h | h <;> intro hc <;> omega

/-! ## Run lemmas for the synchronizer -/

lemma isEmpty_false_of_ne_nil {α : Type} {l : List α} (h : l ≠ []) :
    l.isEmpty = false := by
  cases l with
  | nil => exact absurd rfl h
  | cons a l => rfl

/-- Under the hypotheses that discovery found kernels and boot assets and
that the external reads succeed, `synchronize` runs its manager phase on
the snippet-processed entries. -/
lemma synchronize_reach (env : BootEnv) (install : Installation) (state : State)
    (layouts : List (PackageId × Layout)) (fp : String) (osr : OsRelease)
    (ks : List Kernel)
    (hk : kernel_files_from_state install layouts kernelPattern ≠ [])
    (hb : boot_files_from_state install layouts systemdPattern ≠ [])
    (hr : env.readOsReleaseFile (osReleasePath install) = .ok fp)
    (hp : env.parseOsRelease fp = .ok osr)
    (hd : env.discoverKernels osr
        ((kernel_files_from_state install layouts kernelPattern).map
          KernelCandidate.path) = .ok ks) :
    synchronize env install state layouts =
      managePhase env (configFor install) (install.root == "/") osr
        (loadAllSnippets env (configFor install) (ks.map (buildEntry state))).1
        (boot_files_from_state install layouts systemdPattern)
        (.readOsRel ::
          (loadAllSnippets env (configFor install)
            (ks.map (buildEntry state))).2.map Event.warn) := by
  unfold synchronize
  simp only [fromStr_kernelGlob, fromStr_systemdGlob,
    isEmpty_false_of_ne_nil hk, isEmpty_false_of_ne_nil hb, hr, hp, hd,
    Bool.false_eq_true, if_false]

lemma loadSnippetsOne_stateId (env : BootEnv) (c : Configuration) (e : Entry) :
    (loadSnippetsOne env c e).1.stateId = e.stateId := by
  unfold loadSnippetsOne
  cases env.loadSnippets c e <;> rfl

lemma loadSnippetsOne_kernel (env : BootEnv) (c : Configuration) (e : Entry) :
    (loadSnippetsOne env c e).1.kernel = e.kernel := by
  unfold loadSnippetsOne
  cases env.loadSnippets c e <;> rfl

lemma loadSnippetsOne_cmdline (env : BootEnv) (c : Configuration) (e : Entry) :
    ∃ t, (loadSnippetsOne env c e).1.cmdline = e.cmdline ++ t := by
  unfold loadSnippetsOne
  cases env.loadSnippets c e with
  | ok s => exact ⟨s, rfl⟩
  | error m => exact ⟨[], (List.append_nil _).symm⟩

lemma loadAllSnippets_length (env : BootEnv) (c : Configuration) (es : List Entry) :
    (loadAllSnippets env c es).1.length = es.length := by
  induction es with
  | nil => rfl
  | cons e es ih => simp [loadAllSnippets, ih]

lemma loadAllSnippets_kernels (env : BootEnv) (c : Configuration) (es : List Entry) :
    (loadAllSnippets env c es).1.map Entry.kernel = es.map Entry.kernel := by
  induction es with
  | nil => rfl
  | cons e es ih => simp [loadAllSnippets, ih, loadSnippetsOne_kernel]

lemma loadAllSnippets_mem_src (env : BootEnv) (c : Configuration)
    {es : List Entry} {e' : Entry} (h : e' ∈ (loadAllSnippets env c es).1) :
    ∃ e ∈ es, e' = (loadSnippetsOne env c e).1 := by
  induction es with
  | nil => simp [loadAllSnippets] at h
  | cons e es ih =>
      simp only [loadAllSnippets, List.mem_cons] at h
      rcases h with h | h
      · exact ⟨e, List.mem_cons_self e es, h⟩
      · rcases ih h with ⟨x, hx, hx'⟩
        exact ⟨x, List.mem_cons_of_mem e hx, hx'⟩

lemma loadAllSnippets_warn (env : BootEnv) (c : Configuration)
    {es : List Entry} {e : Entry} {m : String} (he : e ∈ es)
    (hf : env.loadSnippets c e = .error m) :
    m ∈ (loadAllSnippets env c es).2 := by
  induction es with
  | nil => cases he
  | cons x es ih =>
      rcases List.mem_cons.mp he with rfl | he'
      · simp [loadAllSnippets, loadSnippetsOne, hf]
      · have := ih he'
        simp only [loadAllSnippets]
        cases (loadSnippetsOne env c x).2 <;> simp_all

lemma warn_map_ne_mountCall (ws : List String) :
    Event.mountCall ∉ ws.map Event.warn := by
  intro h
  rcases List.mem_map.mp h with ⟨w, _, hw⟩
  cases hw

lemma warn_map_ne_syncCall (ws : List String) :
    Event.syncCall ∉ ws.map Event.warn := by
  intro h
  rcases List.mem_map.mp h with ⟨w, _, hw⟩
  cases hw

lemma warn_map_ne_managerConstructed (ws : List String) (es : List Entry)
    (bs : List Path) :
    Event.managerConstructed es bs ∉ ws.map Event.warn := by
  intro h
  rcases List.mem_map.mp h with ⟨w, _, hw⟩
  cases hw

/-- The result of the mount/sync tail does not depend on the accumulated
trace. -/
lemma mountAndSync_fst (env : BootEnv) (c : Configuration) (n : Bool)
    (o : OsRelease) (pre : List Event) :
    (mountAndSync env c n o pre).1 = (mountAndSync env c n o []).1 := by
  unfold mountAndSync
  cases n
  · cases env.syncSchema c o <;> simp
  · cases env.mountPartitions c
    · simp
    · cases env.syncSchema c o <;> simp

/-- The mount/sync tail only appends mount and sync events to the
accumulated trace. -/
lemma mountAndSync_snd (env : BootEnv) (c : Configuration) (n : Bool)
    (o : OsRelease) (pre : List Event) :
    ∃ t, (mountAndSync env c n o pre).2 = pre ++ t ∧
      t ⊆ [Event.mountCall, Event.syncCall] := by
  unfold mountAndSync
  cases n
  · cases env.syncSchema c o <;>
      exact ⟨[Event.syncCall], rfl, by
        intro x hx; rcases List.mem_singleton.mp hx with rfl; simp⟩
  · cases env.mountPartitions c
    · exact ⟨[Event.mountCall], rfl, by
        intro x hx; rcases List.mem_singleton.mp hx with rfl; simp⟩
    · cases env.syncSchema c o <;>
        exact ⟨[Event.mountCall, Event.syncCall], rfl, List.Subset.refl _⟩

/-- A manager-constructed event in the manager phase's trace either is
the one the phase itself emits or was already in the accumulated trace. -/
lemma mem_managePhase_trace {env : BootEnv} {c : Configuration} {n : Bool}
    {o : OsRelease} {es₀ : List Entry} {bs₀ : List Path} {pre : List Event}
    {es : List Entry} {bs : List Path}
    (h : Event.managerConstructed es bs ∈ (managePhase env c n o es₀ bs₀ pre).2) :
    (es = es₀ ∧ bs = bs₀) ∨ Event.managerConstructed es bs ∈ pre := by
  unfold managePhase at h
  cases hnm : env.newManager c with
  | error e =>
      rw [hnm] at h
      simp only [List.mem_append, List.mem_singleton] at h
      rcases h with h | h
      · exact Or.inr h
      · cases h
  | ok u =>
      rw [hnm] at h
      rcases mountAndSync_snd env c n o
          (pre ++ [Event.attemptManager, Event.managerConstructed es₀ bs₀]) with
        ⟨t, ht, hsub⟩
      rw [ht] at h
      rcases List.mem_append.mp h with h | h
      · rcases List.mem_append.mp h with h | h
        · exact Or.inr h
        · rcases List.mem_cons.mp h with h | h
          · cases h
          · have h' := List.mem_singleton.mp h
            injection h' with h1 h2
            exact Or.inl ⟨h1, h2⟩
      · have := hsub h
        simp at this

/-- Inversion: a manager-constructed event in a run of `synchronize`
names exactly the snippet-processed entries built from some successful
kernel discovery, together with the discovered boot assets. -/
lemma managerConstructed_mem_inv {env : BootEnv} {install : Installation}
    {state : State} {layouts : List (PackageId × Layout)} {es : List Entry}
    {bs : List Path}
    (h : Event.managerConstructed es bs ∈ (synchronize env install state layouts).2) :
    ∃ fp osr ks,
      env.readOsReleaseFile (osReleasePath install) = .ok fp ∧
      env.parseOsRelease fp = .ok osr ∧
      env.discoverKernels osr
        ((kernel_files_from_state install layouts kernelPattern).map
          KernelCandidate.path) = .ok ks ∧
      es = (loadAllSnippets env (configFor install)
        (ks.map (buildEntry state))).1 ∧
      bs = boot_files_from_state install layouts systemdPattern := by
  unfold synchronize at h
  simp only [fromStr_kernelGlob, fromStr_systemdGlob] at h
  cases hke : (kernel_files_from_state install layouts kernelPattern).isEmpty with
  | true => simp only [hke, if_true] at h; simp at h
  | false =>
    simp only [hke, Bool.false_eq_true, if_false] at h
    cases hbe : (boot_files_from_state install layouts systemdPattern).isEmpty with
    | true => simp only [hbe, if_true] at h; simp at h
    | false =>
      simp only [hbe, Bool.false_eq_true, if_false] at h
      cases hr : env.readOsReleaseFile (osReleasePath install) with
      | error e =>
          rw [hr] at h
          dsimp only at h
          cases List.mem_singleton.mp h
      | ok fp =>
        rw [hr] at h
        dsimp only at h
        cases hp : env.parseOsRelease fp with
        | error e =>
            rw [hp] at h
            dsimp only at h
            cases List.mem_singleton.mp h
        | ok osr =>
          rw [hp] at h
          dsimp only at h
          cases hd : env.discoverKernels osr
              ((kernel_files_from_state install layouts kernelPattern).map
                KernelCandidate.path) with
          | error e =>
              rw [hd] at h
              dsimp only at h
              cases List.mem_singleton.mp h
          | ok ks =>
            rw [hd] at h
            dsimp only at h
            rcases mem_managePhase_trace h with ⟨he, hbs⟩ | hpre
            · exact ⟨fp, osr, ks, rfl, hp, hd, he, hbs⟩
            · rcases List.mem_cons.mp hpre with hh | hh
              · cases hh
              · exact absurd hh (warn_map_ne_managerConstructed _ _ _)

/-- Manager phase after a successful construction. -/
lemma managePhase_ok {env : BootEnv} {c : Configuration} (n : Bool)
    (o : OsRelease) (es : List Entry) (bs : List Path) (pre : List Event)
    (hm : env.newManager c = .ok ()) :
    managePhase env c n o es bs pre =
      mountAndSync env c n o
        (pre ++ [Event.attemptManager, Event.managerConstructed es bs]) := by
  unfold managePhase
  rw [hm]

/-- Explicit branch table of the native mount/sync tail. -/
lemma mountAndSync_native (env : BootEnv) (c : Configuration) (o : OsRelease)
    (pre : List Event) :
    mountAndSync env c true o pre =
      (match env.mountPartitions c with
       | .error e => (.error (.blsforme e), pre ++ [Event.mountCall])
       | .ok _ =>
         match env.syncSchema c o with
         | .error e =>
             (.error (.blsforme e), pre ++ [Event.mountCall, Event.syncCall])
         | .ok _ => (.ok (), pre ++ [Event.mountCall, Event.syncCall])) := rfl

/-- Explicit branch table of the image mount/sync tail. -/
lemma mountAndSync_image (env : BootEnv) (c : Configuration) (o : OsRelease)
    (pre : List Event) :
    mountAndSync env c false o pre =
      (match env.syncSchema c o with
       | .error e => (.error (.blsforme e), pre ++ [Event.syncCall])
       | .ok _ => (.ok (), pre ++ [Event.syncCall])) := rfl

lemma buildEntry_kernel (s : State) (d : Kernel) : (buildEntry s d).kernel = d := rfl

/-- Convenience constructor for concrete states used in witnesses. -/
def mkState (v : Int) : State :=
  { id := ⟨v⟩, summary := none, description := none, selections := [],
    created := 0, kind := .transaction }

/-- Witness for C9 at the concrete out-of-range id 2^31. -/
theorem state_id_narrowed_to_i32_witness :
    ((mkState (2 ^ 31)).id.val < -(2 ^ 31) ∨
        (2 ^ 31 : Int) ≤ (mkState (2 ^ 31)).id.val) ∧
      ((buildEntry (mkState (2 ^ 31)) "vmlinuz").cmdline =
          [{ name := "---fstx---",
             snippet := "moss.fstx=" ++ toString (mkState (2 ^ 31)).id.toI32 }] ∧
        (buildEntry (mkState (2 ^ 31)) "vmlinuz").stateId =
          some (mkState (2 ^ 31)).id.toI32 ∧
        (mkState (2 ^ 31)).id.toI32 ≠ (mkState (2 ^ 31)).id.val) :=
  ⟨Or.inr (by simp [mkState]),
    state_id_narrowed_to_i32 (mkState (2 ^ 31)) "vmlinuz" (Or.inr (by simp [mkState]))⟩

/-! ## Concrete fixtures for witnesses -/

/-- Fully succeeding oracle environment. -/
def wEnvOk : BootEnv :=
  { readOsReleaseFile := fun _ => .ok "NAME=AerynOS",
    parseOsRelease := fun s => .ok s,
    discoverKernels := fun _ paths => .ok paths,
    loadSnippets := fun _ _ => .ok [],
    newManager := fun _ => .ok (),
    mountPartitions := fun _ => .ok (),
    syncSchema := fun _ _ => .ok () }

/-- Environment whose manager construction fails (topology failure). -/
def wEnvNoMgr : BootEnv := { wEnvOk with newManager := fun _ => .error "topology" }

/-- Environment whose snippet loading always fails. -/
def wEnvSnipFail : BootEnv :=
  { wEnvOk with loadSnippets := fun _ _ => .error "snippet" }

/-- A native installation rooted at the live filesystem. -/
def wInstall : Installation := ⟨"/"⟩

/-- Layouts shipping one kernel image and one systemd-boot asset. -/
def wLayouts : List (PackageId × Layout) :=
  [("linux",
     { uid := 0, gid := 0, mode := 0, tag := 0,
       entry := .regular "h1" "lib/kernel/6.6.0/vmlinuz" }),
   ("systemd",
     { uid := 0, gid := 0, mode := 0, tag := 0,
       entry := .regular "h2" "lib64/systemd/boot/efi/systemd-bootx64.efi" })]

/-- Resolved path of the fixture kernel. -/
def wKernelPath : Path := "/usr/lib/kernel/6.6.0/vmlinuz"

/-- Resolved path of the fixture boot asset. -/
def wBootAsset : Path := "/usr/lib64/systemd/boot/efi/systemd-bootx64.efi"

/-! ## Claim theorems: the synchronizer -/

/-- C2: for every input, if discovery yields zero kernel candidates or
zero boot-loader asset paths, `synchronize` returns success with an
empty event trace: the os-release file is not read, no manager is
constructed, and nothing is mounted or written. -/
theorem empty_discovery_noop (env : BootEnv) (install : Installation)
    (state : State) (layouts : List (PackageId × Layout))
    (h : kernel_files_from_state install layouts kernelPattern = [] ∨
      boot_files_from_state install layouts systemdPattern = []) :
    synchronize env install state layouts = (.ok (), []) := by
  unfold synchronize
  simp only [fromStr_kernelGlob, fromStr_systemdGlob]
  rcases h with h | h
  · simp [h]
  · cases hke : (kernel_files_from_state install layouts kernelPattern).isEmpty <;>
      simp [h, hke]

/-- Witness for C2 on an empty layout list. -/
theorem empty_discovery_noop_witness :
    (kernel_files_from_state wInstall [] kernelPattern = [] ∨
      boot_files_from_state wInstall [] systemdPattern = []) ∧
    synchronize wEnvOk wInstall (mkState 1) [] = (.ok (), []) :=
  ⟨Or.inl rfl, empty_discovery_noop wEnvOk wInstall (mkState 1) [] (Or.inl rfl)⟩

/-- C3: when the run reaches manager construction and the boot-loader
manager cannot be constructed (a topology error), `synchronize` returns
success — the error is not propagated — and neither the partition mount
nor the configuration sync is ever invoked. -/
theorem topology_failure_is_noop (env : BootEnv) (install : Installation)
    (state : State) (layouts : List (PackageId × Layout)) (fp : String)
    (osr : OsRelease) (ks : List Kernel) (e : BlsErr)
    (hk : kernel_files_from_state install layouts kernelPattern ≠ [])
    (hb : boot_files_from_state install layouts systemdPattern ≠ [])
    (hr : env.readOsReleaseFile (osReleasePath install) = .ok fp)
    (hp : env.parseOsRelease fp = .ok osr)
    (hd : env.discoverKernels osr
        ((kernel_files_from_state install layouts kernelPattern).map
          KernelCandidate.path) = .ok ks)
    (hm : env.newManager (configFor install) = .error e) :
    synchronize env install state layouts =
      (.ok (),
        (Event.readOsRel ::
          (loadAllSnippets env (configFor install)
            (ks.map (buildEntry state))).2.map Event.warn) ++
          [Event.attemptManager]) ∧
    Event.mountCall ∉ (synchronize env install state layouts).2 ∧
    Event.syncCall ∉ (synchronize env install state layouts).2 := by
  have run : synchronize env install state layouts =
      (.ok (),
        (Event.readOsRel ::
          (loadAllSnippets env (configFor install)
            (ks.map (buildEntry state))).2.map Event.warn) ++
          [Event.attemptManager]) := by
    rw [synchronize_reach env install state layouts fp osr ks hk hb hr hp hd]
    unfold managePhase
    rw [hm]
  refine ⟨run, ?_, ?_⟩ <;> rw [run] <;>
    simp [warn_map_ne_mountCall, warn_map_ne_syncCall]

/-- Witness for C3 on the kernel-shipping fixture with a failing
manager construction. -/
theorem topology_failure_is_noop_witness :
    wEnvNoMgr.newManager (configFor wInstall) = .error "topology" ∧
    (synchronize wEnvNoMgr wInstall (mkState 1) wLayouts =
        (.ok (), [Event.readOsRel, Event.attemptManager]) ∧
      Event.mountCall ∉ (synchronize wEnvNoMgr wInstall (mkState 1) wLayouts).2 ∧
      Event.syncCall ∉ (synchronize wEnvNoMgr wInstall (mkState 1) wLayouts).2) :=
  ⟨rfl,
    topology_failure_is_noop wEnvNoMgr wInstall (mkState 1) wLayouts
      "NAME=AerynOS" "NAME=AerynOS" [wKernelPath] "topology"
      (by decide) (by decide) rfl rfl (by decide) rfl⟩

/-- C4: on every run that constructs a manager, a native root (exactly
the path `/`) mounts partitions before syncing and propagates any mount
or sync error, while any other root never mounts and syncs directly,
again propagating sync errors. -/
theorem native_mounts_before_sync (env : BootEnv) (install : Installation)
    (state : State) (layouts : List (PackageId × Layout)) (fp : String)
    (osr : OsRelease) (ks : List Kernel) (es : List Entry) (ws : List String)
    (hk : kernel_files_from_state install layouts kernelPattern ≠ [])
    (hb : boot_files_from_state install layouts systemdPattern ≠ [])
    (hr : env.readOsReleaseFile (osReleasePath install) = .ok fp)
    (hp : env.parseOsRelease fp = .ok osr)
    (hd : env.discoverKernels osr
        ((kernel_files_from_state install layouts kernelPattern).map
          KernelCandidate.path) = .ok ks)
    (hs : loadAllSnippets env (configFor install) (ks.map (buildEntry state)) =
      (es, ws))
    (hm : env.newManager (configFor install) = .ok ()) :
    (install.root = "/" →
      synchronize env install state layouts =
        (match env.mountPartitions (configFor install) with
         | .error e =>
             (.error (.blsforme e),
              (Event.readOsRel :: ws.map Event.warn) ++
                [Event.attemptManager,
                 Event.managerConstructed es
                   (boot_files_from_state install layouts systemdPattern),
                 Event.mountCall])
         | .ok _ =>
           match env.syncSchema (configFor install) osr with
           | .error e =>
               (.error (.blsforme e),
                (Event.readOsRel :: ws.map Event.warn) ++
                  [Event.attemptManager,
                   Event.managerConstructed es
                     (boot_files_from_state install layouts systemdPattern),
                   Event.mountCall, Event.syncCall])
           | .ok _ =>
               (.ok (),
                (Event.readOsRel :: ws.map Event.warn) ++
                  [Event.attemptManager,
                   Event.managerConstructed es
                     (boot_files_from_state install layouts systemdPattern),
                   Event.mountCall, Event.syncCall]))) ∧
    (install.root ≠ "/" →
      Event.mountCall ∉ (synchronize env install state layouts).2 ∧
      synchronize env install state layouts =
        (match env.syncSchema (configFor install) osr with
         | .error e =>
             (.error (.blsforme e),
              (Event.readOsRel :: ws.map Event.warn) ++
                [Event.attemptManager,
                 Event.managerConstructed es
                   (boot_files_from_state install layouts systemdPattern),
                 Event.syncCall])
         | .ok _ =>
             (.ok (),
              (Event.readOsRel :: ws.map Event.warn) ++
                [Event.attemptManager,
                 Event.managerConstructed es
                   (boot_files_from_state install layouts systemdPattern),
                 Event.syncCall]))) := by
  have run : synchronize env install state layouts =
      mountAndSync env (configFor install) (install.root == "/") osr
        ((Event.readOsRel :: ws.map Event.warn) ++
          [Event.attemptManager,
           Event.managerConstructed es
             (boot_files_from_state install layouts systemdPattern)]) := by
    rw [synchronize_reach env install state layouts fp osr ks hk hb hr hp hd, hs,
      managePhase_ok _ _ _ _ _ hm]
  constructor
  · intro hroot
    have hb2 : (install.root == "/") = true := beq_iff_eq.mpr hroot
    rw [run, hb2, mountAndSync_native]
    cases env.mountPartitions (configFor install) with
    | error e => simp
    | ok u =>
        cases env.syncSchema (configFor install) osr with
        | error e => simp
        | ok v => simp
  · intro hroot
    have hb2 : (install.root == "/") = false := beq_eq_false_iff_ne.mpr hroot
    rw [run, hb2, mountAndSync_image]
    constructor
    · cases env.syncSchema (configFor install) osr with
      | error e => simp [warn_map_ne_mountCall]
      | ok v => simp [warn_map_ne_mountCall]
    · cases env.syncSchema (configFor install) osr with
      | error e => simp
      | ok v => simp

/-- Witness for C4 on the native fixture with succeeding mount and
sync. -/
theorem native_mounts_before_sync_witness :
    wEnvOk.newManager (configFor wInstall) = .ok () ∧
    ((wInstall.root = "/" →
      synchronize wEnvOk wInstall (mkState 1) wLayouts =
        (match wEnvOk.mountPartitions (configFor wInstall) with
         | .error e =>
             (.error (.blsforme e),
              (Event.readOsRel :: ([] : List String).map Event.warn) ++
                [Event.attemptManager,
                 Event.managerConstructed [buildEntry (mkState 1) wKernelPath]
                   (boot_files_from_state wInstall wLayouts systemdPattern),
                 Event.mountCall])
         | .ok _ =>
           match wEnvOk.syncSchema (configFor wInstall) "NAME=AerynOS" with
           | .error e =>
               (.error (.blsforme e),
                (Event.readOsRel :: ([] : List String).map Event.warn) ++
                  [Event.attemptManager,
                   Event.managerConstructed [buildEntry (mkState 1) wKernelPath]
                     (boot_files_from_state wInstall wLayouts systemdPattern),
                   Event.mountCall, Event.syncCall])
           | .ok _ =>
               (.ok (),
                (Event.readOsRel :: ([] : List String).map Event.warn) ++
                  [Event.attemptManager,
                   Event.managerConstructed [buildEntry (mkState 1) wKernelPath]
                     (boot_files_from_state wInstall wLayouts systemdPattern),
                   Event.mountCall, Event.syncCall]))) ∧
    (wInstall.root ≠ "/" →
      Event.mountCall ∉ (synchronize wEnvOk wInstall (mkState 1) wLayouts).2 ∧
      synchronize wEnvOk wInstall (mkState 1) wLayouts =
        (match wEnvOk.syncSchema (configFor wInstall) "NAME=AerynOS" with
         | .error e =>
             (.error (.blsforme e),
              (Event.readOsRel :: ([] : List String).map Event.warn) ++
                [Event.attemptManager,
                 Event.managerConstructed [buildEntry (mkState 1) wKernelPath]
                   (boot_files_from_state wInstall wLayouts systemdPattern),
                 Event.syncCall])
         | .ok _ =>
             (.ok (),
              (Event.readOsRel :: ([] : List String).map Event.warn) ++
                [Event.attemptManager,
                 Event.managerConstructed [buildEntry (mkState 1) wKernelPath]
                   (boot_files_from_state wInstall wLayouts systemdPattern),
                 Event.syncCall])))) :=
  ⟨rfl,
    native_mounts_before_sync wEnvOk wInstall (mkState 1) wLayouts
      "NAME=AerynOS" "NAME=AerynOS" [wKernelPath]
      [buildEntry (mkState 1) wKernelPath] []
      (by decide) (by decide) rfl rfl (by decide) (by decide) rfl⟩

/-- C5: a failure to load cmdline snippets for an entry never aborts the
synchronization: the run's result is exactly the mount/sync outcome (an
expression in which snippet loading plays no part), the failing entry
only contributes a logged warning, and every entry — one per discovered
kernel, the failing one included — is still handed to the boot-loader
manager for the final sync. -/
theorem snippet_failure_isolated (env : BootEnv) (install : Installation)
    (state : State) (layouts : List (PackageId × Layout)) (fp : String)
    (osr : OsRelease) (ks : List Kernel) (es : List Entry) (ws : List String)
    (e : Entry) (m : String)
    (hk : kernel_files_from_state install layouts kernelPattern ≠ [])
    (hb : boot_files_from_state install layouts systemdPattern ≠ [])
    (hr : env.readOsReleaseFile (osReleasePath install) = .ok fp)
    (hp : env.parseOsRelease fp = .ok osr)
    (hd : env.discoverKernels osr
        ((kernel_files_from_state install layouts kernelPattern).map
          KernelCandidate.path) = .ok ks)
    (hs : loadAllSnippets env (configFor install) (ks.map (buildEntry state)) =
      (es, ws))
    (hm : env.newManager (configFor install) = .ok ())
    (he : e ∈ ks.map (buildEntry state))
    (hf : env.loadSnippets (configFor install) e = .error m) :
    Event.managerConstructed es
        (boot_files_from_state install layouts systemdPattern) ∈
      (synchronize env install state layouts).2 ∧
    es.length = ks.length ∧
    es.map Entry.kernel = ks ∧
    Event.warn m ∈ (synchronize env install state layouts).2 ∧
    (synchronize env install state layouts).1 =
      (mountAndSync env (configFor install) (install.root == "/") osr []).1 := by
  have run : synchronize env install state layouts =
      mountAndSync env (configFor install) (install.root == "/") osr
        ((Event.readOsRel :: ws.map Event.warn) ++
          [Event.attemptManager,
           Event.managerConstructed es
             (boot_files_from_state install layouts systemdPattern)]) := by
    rw [synchronize_reach env install state layouts fp osr ks hk hb hr hp hd, hs,
      managePhase_ok _ _ _ _ _ hm]
  rcases mountAndSync_snd env (configFor install) (install.root == "/") osr
      ((Event.readOsRel :: ws.map Event.warn) ++
        [Event.attemptManager,
         Event.managerConstructed es
           (boot_files_from_state install layouts systemdPattern)]) with
    ⟨t, ht, hsub⟩
  have hes : es = (loadAllSnippets env (configFor install)
      (ks.map (buildEntry state))).1 := by rw [hs]
  have hws : ws = (loadAllSnippets env (configFor install)
      (ks.map (buildEntry state))).2 := by rw [hs]
  refine ⟨?_, ?_, ?_, ?_, ?_⟩
  · rw [run, ht]
    simp
  · rw [hes, loadAllSnippets_length, List.length_map]
  · rw [hes, loadAllSnippets_kernels, List.map_map]
    have : (Entry.kernel ∘ buildEntry state) = id := by
      funext d; rfl
    rw [this, List.map_id]
  · have hmw : m ∈ ws := by
      rw [hws]; exact loadAllSnippets_warn env (configFor install) he hf
    rw [run, ht]
    simp only [List.mem_append, List.mem_cons]
    exact Or.inl (Or.inl (Or.inr (List.mem_map.mpr ⟨m, hmw, rfl⟩)))
  · rw [run, mountAndSync_fst]

/-- Witness for C5: with an always-failing snippet loader, the single
entry still reaches the manager, a warning is traced, and the run
succeeds. -/
theorem snippet_failure_isolated_witness :
    wEnvSnipFail.loadSnippets (configFor wInstall)
        (buildEntry (mkState 1) wKernelPath) = .error "snippet" ∧
    buildEntry (mkState 1) wKernelPath ∈
      [wKernelPath].map (buildEntry (mkState 1)) ∧
    (Event.managerConstructed [buildEntry (mkState 1) wKernelPath]
        (boot_files_from_state wInstall wLayouts systemdPattern) ∈
      (synchronize wEnvSnipFail wInstall (mkState 1) wLayouts).2 ∧
    ([buildEntry (mkState 1) wKernelPath] : List Entry).length =
      ([wKernelPath] : List Kernel).length ∧
    ([buildEntry (mkState 1) wKernelPath] : List Entry).map Entry.kernel =
      [wKernelPath] ∧
    Event.warn "snippet" ∈
      (synchronize wEnvSnipFail wInstall (mkState 1) wLayouts).2 ∧
    (synchronize wEnvSnipFail wInstall (mkState 1) wLayouts).1 =
      (mountAndSync wEnvSnipFail (configFor wInstall) (wInstall.root == "/")
        "NAME=AerynOS" []).1) :=
  ⟨rfl, by decide,
    snippet_failure_isolated wEnvSnipFail wInstall (mkState 1) wLayouts
      "NAME=AerynOS" "NAME=AerynOS" [wKernelPath]
      [buildEntry (mkState 1) wKernelPath] ["snippet"]
      (buildEntry (mkState 1) wKernelPath) "snippet"
      (by decide) (by decide) rfl rfl (by decide) (by decide) rfl
      (by decide) rfl⟩

/-- C1 (counterexample): at state id 2^31 the run reaches entry
construction and builds a non-empty entry list, yet no built entry
carries a cmdline snippet with the state's actual id rendered in
decimal, and none records the actual id in its state-id field — the
tagged value is the i32-narrowed id instead. -/
theorem cmdline_tag_not_actual_id :
    ((synchronize wEnvOk wInstall (mkState (2 ^ 31)) wLayouts).2.any fun ev =>
        match ev with
        | .managerConstructed es _ => !es.isEmpty
        | _ => false) = true ∧
    ((synchronize wEnvOk wInstall (mkState (2 ^ 31)) wLayouts).2.any fun ev =>
        match ev with
        | .managerConstructed es _ =>
            es.any fun e => e.cmdline.any fun c =>
              c.snippet == "moss.fstx=" ++ toString (mkState (2 ^ 31)).id.val
        | _ => false) = false ∧
    ((synchronize wEnvOk wInstall (mkState (2 ^ 31)) wLayouts).2.any fun ev =>
        match ev with
        | .managerConstructed es _ =>
            es.any fun e => e.stateId == some (mkState (2 ^ 31)).id.val
        | _ => false) = false := by
  refine ⟨by decide, by decide, by decide⟩

/-- C1 (amended): every boot entry handed to the boot-loader manager by
a run of `synchronize` carries the cmdline snippet `moss.fstx=` followed
by the state's id narrowed to a 32-bit signed integer, rendered in
decimal, and the same narrowed id in its structured state-id field; the
narrowed id equals the state's id whenever that id fits in the i32
range (so for id 42 the snippet is exactly `moss.fstx=42`). -/
theorem entries_tagged_with_narrowed_id (env : BootEnv) (install : Installation)
    (state : State) (layouts : List (PackageId × Layout)) (es : List Entry)
    (bs : List Path) (e : Entry)
    (hmem : Event.managerConstructed es bs ∈
      (synchronize env install state layouts).2)
    (he : e ∈ es) :
    ({ name := "---fstx---",
       snippet := "moss.fstx=" ++ toString state.id.toI32 } : CmdlineEntry) ∈
      e.cmdline ∧
    e.stateId = some state.id.toI32 ∧
    (-(2 ^ 31) ≤ state.id.val → state.id.val < 2 ^ 31 →
      state.id.toI32 = state.id.val) := by
  rcases managerConstructed_mem_inv hmem with ⟨fp, osr, ks, _, _, _, hes, _⟩
  subst hes
  rcases loadAllSnippets_mem_src env (configFor install) he with ⟨e₀, he₀, rfl⟩
  rcases List.mem_map.mp he₀ with ⟨d, hd, rfl⟩
  refine ⟨?_, ?_, ?_⟩
  · rcases loadSnippetsOne_cmdline env (configFor install)
        (buildEntry state d) with ⟨t, ht⟩
    rw [ht]
    exact List.mem_append_left _ (by
      simp [buildEntry, Entry.new, Entry.with_cmdline, Entry.with_state_id])
  · rw [loadSnippetsOne_stateId]
    rfl
  · intro h1 h2
    unfold Id.toI32
    rw [Int.emod_eq_of_lt (by omega) (by omega)]
    omega

/-- Witness for the amended C1 at state id 42 on the fixture run. -/
theorem entries_tagged_with_narrowed_id_witness :
    Event.managerConstructed [buildEntry (mkState 42) wKernelPath] [wBootAsset] ∈
      (synchronize wEnvOk wInstall (mkState 42) wLayouts).2 ∧
    buildEntry (mkState 42) wKernelPath ∈ [buildEntry (mkState 42) wKernelPath] ∧
    (({ name := "---fstx---",
        snippet := "moss.fstx=" ++ toString (mkState 42).id.toI32 } : CmdlineEntry) ∈
        (buildEntry (mkState 42) wKernelPath).cmdline ∧
      (buildEntry (mkState 42) wKernelPath).stateId =
        some (mkState 42).id.toI32 ∧
      (-(2 ^ 31) ≤ (mkState 42).id.val → (mkState 42).id.val < 2 ^ 31 →
        (mkState 42).id.toI32 = (mkState 42).id.val)) :=
  ⟨by decide, by decide,
    entries_tagged_with_narrowed_id wEnvOk wInstall (mkState 42) wLayouts
      [buildEntry (mkState 42) wKernelPath] [wBootAsset]
      (buildEntry (mkState 42) wKernelPath) (by decide) (by decide)⟩

/-- Recognizer for the pattern-compilation error variant. -/
def isPatternError : Except Error Unit → Bool
  | .error (.pattern _) => true
  | _ => false

lemma isPatternError_mountAndSync (env : BootEnv) (c : Configuration)
    (n : Bool) (o : OsRelease) (pre : List Event) :
    isPatternError (mountAndSync env c n o pre).1 = false := by
  unfold mountAndSync
  cases n
  · cases env.syncSchema c o <;> rfl
  · cases env.mountPartitions c with
    | error e => rfl
    | ok u => cases env.syncSchema c o <;> rfl

lemma isPatternError_managePhase (env : BootEnv) (c : Configuration)
    (n : Bool) (o : OsRelease) (es : List Entry) (bs : List Path)
    (pre : List Event) :
    isPatternError (managePhase env c n o es bs pre).1 = false := by
  unfold managePhase
  cases env.newManager c with
  | error e => rfl
  | ok u => exact isPatternError_mountAndSync env c n o _

/-- C10: the pattern-compilation error branch of `synchronize` is
unreachable — the two glob patterns are fixed literals that always
compile, so no run ever returns the `Pattern` variant of the error
type. -/
theorem pattern_error_unreachable (env : BootEnv) (install : Installation)
    (state : State) (layouts : List (PackageId × Layout)) :
    isPatternError (synchronize env install state layouts).1 = false := by
  unfold synchronize
  simp only [fromStr_kernelGlob, fromStr_systemdGlob]
  cases hke : (kernel_files_from_state install layouts kernelPattern).isEmpty with
  | true => simp [hke, isPatternError]
  | false =>
    simp only [hke, Bool.false_eq_true, if_false]
    cases hbe : (boot_files_from_state install layouts systemdPattern).isEmpty with
    | true => simp [hbe, isPatternError]
    | false =>
      simp only [hbe, Bool.false_eq_true, if_false]
      cases hr : env.readOsReleaseFile (osReleasePath install) with
      | error e => rfl
      | ok fp =>
        dsimp only
        cases hp : env.parseOsRelease fp with
        | error e => rfl
        | ok osr =>
          dsimp only
          cases hd : env.discoverKernels osr
              ((kernel_files_from_state install layouts kernelPattern).map
                KernelCandidate.path) with
          | error e => rfl
          | ok ks =>
            dsimp only
            exact isPatternError_managePhase env (configFor install)
              (install.root == "/") osr _ _ _

end MossBoot
